import Mathlib

/-!
# Verification of the web-riscv-vm decode-and-execute core

A shallow embedding of the RV32I emulator core:

* `src/src/emulator/emulator.rs` — instruction signatures, the `Instruction`
  enumeration, `Instruction::execute_instruction`, and the `ADD` semantics;
* `src/src/emulator/rv32i.rs` — the standalone per-instruction helpers
  `rv32i_instruction_add` / `rv32i_instruction_bltu`;
* `src/src/emulator/instruction_formats.rs` — the six format decoders
  (R, I, S, B, U, J) and their byte-slice entry points.

Modelling conventions:

* Rust `u8` fields are modelled as `ℕ`; `i16` / `i32` values as `ℤ` with
  explicit two's-complement wrapping (`wrap32`) exactly where the source
  performs wrapping 32-bit arithmetic.  Rust casts `q as u8` appear as
  `% 2 ^ 8`, and `x & (2 ^ k - 1)` / `x >> s` as `% 2 ^ k` / `/ 2 ^ s`.
* `emulator.rs` declares `VmState { registers: [i32; 32], sp: i32, pc: u8 }`;
  `rv32i.rs` adds an `i32` immediate to `pc`.  No execution path of
  `execute_instruction` ever touches `pc`, so the state is modelled once with
  `pc : ℤ` and a 32-bit wrap at the single mutation site (`bltu`).
* Rust indexing `registers[i as usize]` panics when `i ≥ 32`; the model's
  `getReg`/`setReg` carry a total fallback, and every theorem that quantifies
  over register numbers carries `< 32` hypotheses so the fallback branch is
  never exercised.
* A Rust slice access `bytes[k]` out of bounds panics; the byte-level parsers
  are modelled with `Option`, returning `none` exactly where the Rust code
  would panic on a short slice.
-/

namespace WebRiscvVm

/-- Two's-complement wrap of an integer into the `i32` range
`[-2^31, 2^31)`; `wrap32 (a + b)` is Rust `a.wrapping_add(b)` on `i32`. -/
def wrap32 (z : ℤ) : ℤ :=
  (z + 2 ^ 31) % 2 ^ 32 - 2 ^ 31

/-- `DestinationSource1Source2 { rd: u8, rs1: u8, rs2: u8 }`
(src/src/emulator/emulator.rs lines 23-27; duplicated verbatim in
instruction_signatures.rs). -/
structure DestinationSource1Source2 where
  rd : ℕ
  rs1 : ℕ
  rs2 : ℕ
deriving DecidableEq

/-- `Source1Source2Immediate { rs1: u8, rs2: u8, imm: i16 }`
(src/src/emulator/emulator.rs lines 30-34). -/
structure Source1Source2Immediate where
  rs1 : ℕ
  rs2 : ℕ
  imm : ℤ
deriving DecidableEq

/-- `DestinationSource1Immediate { rd: u8, rs1: u8, imm: i16 }`
(src/src/emulator/emulator.rs lines 37-41). -/
structure DestinationSource1Immediate where
  rd : ℕ
  rs1 : ℕ
  imm : ℤ
deriving DecidableEq

/-- `DestinationImmediate { rd: u8, imm: i16 }`
(src/src/emulator/emulator.rs lines 44-47).  `Li` casts `imm as i32`,
which is value-preserving, so `imm : ℤ` needs no separate cast. -/
structure DestinationImmediate where
  rd : ℕ
  imm : ℤ
deriving DecidableEq

/-- `enum PseudoInstruction { Ret, Li(DestinationImmediate) }`
(src/src/emulator/emulator.rs lines 114-117). -/
inductive PseudoInstruction where
  | ret : PseudoInstruction
  | li (sig : DestinationImmediate) : PseudoInstruction
deriving DecidableEq

/-- `enum Rv32iInstruction` — the full RV32I enumeration
(src/src/emulator/emulator.rs lines 120-211, duplicated in rv32i.rs). -/
inductive Rv32iInstruction where
  | add (sig : DestinationSource1Source2) : Rv32iInstruction
  | sub (sig : DestinationSource1Source2) : Rv32iInstruction
  | xor (sig : DestinationSource1Source2) : Rv32iInstruction
  | or (sig : DestinationSource1Source2) : Rv32iInstruction
  | and (sig : DestinationSource1Source2) : Rv32iInstruction
  | sll (sig : DestinationSource1Source2) : Rv32iInstruction
  | srl (sig : DestinationSource1Source2) : Rv32iInstruction
  | sra (sig : DestinationSource1Source2) : Rv32iInstruction
  | slt (sig : DestinationSource1Source2) : Rv32iInstruction
  | sltu (sig : DestinationSource1Source2) : Rv32iInstruction
  | addi (sig : DestinationSource1Immediate) : Rv32iInstruction
  | xori (sig : DestinationSource1Immediate) : Rv32iInstruction
  | ori (sig : DestinationSource1Immediate) : Rv32iInstruction
  | andi (sig : DestinationSource1Immediate) : Rv32iInstruction
  | slli (sig : DestinationSource1Immediate) : Rv32iInstruction
  | srli (sig : DestinationSource1Immediate) : Rv32iInstruction
  | srai (sig : DestinationSource1Immediate) : Rv32iInstruction
  | slti (sig : DestinationSource1Immediate) : Rv32iInstruction
  | sltiu (sig : DestinationSource1Immediate) : Rv32iInstruction
  | lb (sig : DestinationSource1Immediate) : Rv32iInstruction
  | lh (sig : DestinationSource1Immediate) : Rv32iInstruction
  | lw (sig : DestinationSource1Immediate) : Rv32iInstruction
  | lbu (sig : DestinationSource1Immediate) : Rv32iInstruction
  | lhu (sig : DestinationSource1Immediate) : Rv32iInstruction
  | sb (sig : DestinationSource1Immediate) : Rv32iInstruction
  | sh (sig : DestinationSource1Immediate) : Rv32iInstruction
  | sw (sig : DestinationSource1Immediate) : Rv32iInstruction
  | beq (sig : Source1Source2Immediate) : Rv32iInstruction
  | bne (sig : Source1Source2Immediate) : Rv32iInstruction
  | blt (sig : Source1Source2Immediate) : Rv32iInstruction
  | bge (sig : Source1Source2Immediate) : Rv32iInstruction
  | bltu (sig : Source1Source2Immediate) : Rv32iInstruction
  | bgeu (sig : Source1Source2Immediate) : Rv32iInstruction
  | jal (sig : DestinationImmediate) : Rv32iInstruction
  | jalr (sig : DestinationSource1Immediate) : Rv32iInstruction
  | lui (sig : DestinationImmediate) : Rv32iInstruction
  | auipc (sig : DestinationImmediate) : Rv32iInstruction
  | ecall : Rv32iInstruction
  | ebreak : Rv32iInstruction
deriving DecidableEq

/-- `enum Instruction { PseudoInstruction(..), Rv32iInstruction(..) }`
(src/src/emulator/emulator.rs lines 56-59). -/
inductive Instruction where
  | pseudoInstruction (p : PseudoInstruction) : Instruction
  | rv32iInstruction (r : Rv32iInstruction) : Instruction
deriving DecidableEq

/-- `struct VmState { registers: [i32; 32], sp: i32, pc: u8 }`
(src/src/emulator/emulator.rs lines 16-20).  See the module comment on the
`pc` field width. -/
structure VmState where
  registers : Fin 32 → ℤ
  sp : ℤ
  pc : ℤ

/-- Read `registers[i as usize]`; total fallback `0` in place of the Rust
out-of-bounds panic (all theorems keep `i < 32`). -/
def getReg (regs : Fin 32 → ℤ) (i : ℕ) : ℤ :=
  if h : i < 32 then regs ⟨i, h⟩ else 0

/-- Write `registers[i as usize] = v`; an out-of-range `i` writes nothing,
in place of the Rust out-of-bounds panic (all theorems keep `i < 32`). -/
def setReg (regs : Fin 32 → ℤ) (i : ℕ) (v : ℤ) : Fin 32 → ℤ :=
  fun j => if (j : ℕ) = i then v else regs j

/-- `enum Rv32iInstructionError { InstructionNotImplemented(String) }`
(src/src/emulator/emulator.rs lines 4-8). -/
inductive Rv32iInstructionError where
  | instructionNotImplemented (msg : String) : Rv32iInstructionError
deriving DecidableEq

/-- `Rv32iInstruction::rv32i_instruction_add`
(src/src/emulator/emulator.rs lines 224-235; byte-identical copy in
src/src/emulator/rv32i.rs lines 105-116): early return when `rd == 0`,
otherwise `registers[rd] = registers[rs1].wrapping_add(registers[rs2])`. -/
def rv32i_instruction_add (d : DestinationSource1Source2) (s : VmState) : VmState :=
  if d.rd = 0 then s
  else
    { s with
        registers :=
          setReg s.registers d.rd
            (wrap32 (getReg s.registers d.rs1 + getReg s.registers d.rs2)) }

/-- `Rv32iInstruction::rv32i_instruction_bltu`
(src/src/emulator/rv32i.rs lines 118-125):
`if sig.rs1 < sig.rs2 { vm_state.pc += sig.imm as i32 }` — the comparison is
between the raw `u8` operand fields `rs1`/`rs2` (register numbers), not the
values they index in the register file. -/
def rv32i_instruction_bltu (sig : Source1Source2Immediate) (s : VmState) : VmState :=
  if sig.rs1 < sig.rs2 then { s with pc := wrap32 (s.pc + sig.imm) } else s

/-- `Instruction::execute_instruction`
(src/src/emulator/emulator.rs lines 79-110).  The Rust function takes
`&mut VmState` and returns `Result<(), Rv32iInstructionError>`; modelled as a
pure map to (result, post-state).  Only the `Add` and `Li` arms have
semantics; every other variant falls to a `_` arm that returns
`Err(InstructionNotImplemented("aaa".to_string()))` and performs no state
mutation (the `println!` side effects carry no state).  The `Li` arm writes
`registers[rd as usize] = imm as i32` with no `rd == 0` guard. -/
def executeInstruction (i : Instruction) (s : VmState) :
    Except Rv32iInstructionError Unit × VmState :=
  match i with
  | .rv32iInstruction r =>
    match r with
    | .add d => (Except.ok (), rv32i_instruction_add d s)
    | _ => (Except.error (.instructionNotImplemented "aaa"), s)
  | .pseudoInstruction p =>
    match p with
    | .li sig => (Except.ok (), { s with registers := setReg s.registers sig.rd sig.imm })
    | _ => (Except.error (.instructionNotImplemented "aaa"), s)

/-- Which `Instruction` variants reach an implemented arm of
`execute_instruction` — exactly `Rv32iInstruction::Add` and
`PseudoInstruction::Li`; every other variant is caught by a `_` fallback
arm (src/src/emulator/emulator.rs lines 88-93 and 102-107). -/
def hasImplementedArm : Instruction → Bool
  | .rv32iInstruction (.add _) => true
  | .pseudoInstruction (.li _) => true
  | _ => false

/-- The dispatch loop of the reference test
(src/src/emulator/emulator.rs lines 397-399): execute each instruction in
sequence, discarding the per-instruction `Result`; nothing in the loop or in
`execute_instruction` advances `pc`. -/
def runProgram (instrs : List Instruction) (s : VmState) : VmState :=
  instrs.foldl (fun st i => (executeInstruction i st).2) s

/-- `InstructionFormatR` (src/src/emulator/instruction_formats.rs
lines 45-63); all fields `u8`. -/
structure InstructionFormatR where
  funct7 : ℕ
  rs2 : ℕ
  rs1 : ℕ
  funct3 : ℕ
  rd : ℕ
  opcode : ℕ
deriving DecidableEq

/-- `InstructionFormatR::new` (instruction_formats.rs lines 66-75):
shift-and-mask field extraction; every mask here is at most 7 bits wide, so
the `as u8` casts are value-preserving and elided. -/
def InstructionFormatR.new (instruction : ℕ) : InstructionFormatR where
  opcode := instruction % 2 ^ 7
  rd := instruction / 2 ^ 7 % 2 ^ 5
  funct3 := instruction / 2 ^ 12 % 2 ^ 3
  rs1 := instruction / 2 ^ 15 % 2 ^ 5
  rs2 := instruction / 2 ^ 20 % 2 ^ 5
  funct7 := instruction / 2 ^ 25 % 2 ^ 7

/-- `InstructionFormatI` (instruction_formats.rs lines 88-103); note the
12-bit immediate is stored in a `u8` field. -/
structure InstructionFormatI where
  imm : ℕ
  rs1 : ℕ
  funct3 : ℕ
  rd : ℕ
  opcode : ℕ
deriving DecidableEq

/-- `InstructionFormatI::new` (instruction_formats.rs lines 106-116):
`imm: ((instruction >> 20) & 0b1111_1111_1111) as u8` — the 12-bit mask is
followed by a truncating cast to `u8`, modelled as `% 2 ^ 12 % 2 ^ 8`. -/
def InstructionFormatI.new (instruction : ℕ) : InstructionFormatI where
  opcode := instruction % 2 ^ 7
  rd := instruction / 2 ^ 7 % 2 ^ 5
  funct3 := instruction / 2 ^ 12 % 2 ^ 3
  rs1 := instruction / 2 ^ 15 % 2 ^ 5
  imm := instruction / 2 ^ 20 % 2 ^ 12 % 2 ^ 8

/-- `InstructionFormatS` (instruction_formats.rs lines 127-145). -/
structure InstructionFormatS where
  imm_5_to_11 : ℕ
  rs2 : ℕ
  rs1 : ℕ
  func3 : ℕ
  imm_0_to_4 : ℕ
  opcode : ℕ
deriving DecidableEq

/-- `InstructionFormatS::new` (instruction_formats.rs lines 149-164);
all masks at most 7 bits, casts value-preserving. -/
def InstructionFormatS.new (instruction : ℕ) : InstructionFormatS where
  imm_5_to_11 := instruction / 2 ^ 25 % 2 ^ 7
  rs2 := instruction / 2 ^ 20 % 2 ^ 5
  rs1 := instruction / 2 ^ 15 % 2 ^ 5
  func3 := instruction / 2 ^ 12 % 2 ^ 3
  imm_0_to_4 := instruction / 2 ^ 7 % 2 ^ 5
  opcode := instruction % 2 ^ 7

/-- `InstructionFormatB` (instruction_formats.rs lines 180-204). -/
structure InstructionFormatB where
  sign_imm_5_to_11 : ℕ
  imm_5_to_11 : ℕ
  rs2 : ℕ
  rs1 : ℕ
  func3 : ℕ
  imm_0_to_4 : ℕ
  sign_imm_0_to_4 : ℕ
  opcode : ℕ
deriving DecidableEq

/-- `InstructionFormatB::new` (instruction_formats.rs lines 208-227);
all masks at most 6 bits, casts value-preserving. -/
def InstructionFormatB.new (instruction : ℕ) : InstructionFormatB where
  sign_imm_5_to_11 := instruction / 2 ^ 31 % 2 ^ 1
  imm_5_to_11 := instruction / 2 ^ 25 % 2 ^ 6
  rs2 := instruction / 2 ^ 20 % 2 ^ 5
  rs1 := instruction / 2 ^ 15 % 2 ^ 5
  func3 := instruction / 2 ^ 12 % 2 ^ 3
  imm_0_to_4 := instruction / 2 ^ 8 % 2 ^ 4
  sign_imm_0_to_4 := instruction / 2 ^ 7 % 2 ^ 1
  opcode := instruction % 2 ^ 7

/-- `InstructionFormatU` (instruction_formats.rs lines 237-246); the 20-bit
immediate is stored in a `u8` field. -/
structure InstructionFormatU where
  imm : ℕ
  rd : ℕ
  opcode : ℕ
deriving DecidableEq

/-- `InstructionFormatU::new` (instruction_formats.rs lines 249-259):
`imm: ((instruction >> 12) & 0b1111_1111_1111_1111_1111) as u8` — 20-bit
mask followed by a truncating cast to `u8`. -/
def InstructionFormatU.new (instruction : ℕ) : InstructionFormatU where
  imm := instruction / 2 ^ 12 % 2 ^ 20 % 2 ^ 8
  rd := instruction / 2 ^ 7 % 2 ^ 5
  opcode := instruction % 2 ^ 7

/-- `InstructionFormatJ` (instruction_formats.rs lines 272-290); the 10-bit
`imm_21_30` chunk is stored in a `u8` field. -/
structure InstructionFormatJ where
  sign_imm_21_30 : ℕ
  imm_21_30 : ℕ
  sign_imm_12_19 : ℕ
  imm_12_19 : ℕ
  rd : ℕ
  opcode : ℕ
deriving DecidableEq

/-- `InstructionFormatJ::new` (instruction_formats.rs lines 293-302):
`imm_21_30: ((instruction >> 21) & 0b0011_1111_1111) as u8` — 10-bit mask
followed by a truncating cast to `u8`. -/
def InstructionFormatJ.new (instruction : ℕ) : InstructionFormatJ where
  sign_imm_21_30 := instruction / 2 ^ 31 % 2 ^ 1
  imm_21_30 := instruction / 2 ^ 21 % 2 ^ 10 % 2 ^ 8
  sign_imm_12_19 := instruction / 2 ^ 20 % 2 ^ 1
  imm_12_19 := instruction / 2 ^ 12 % 2 ^ 8
  rd := instruction / 2 ^ 7 % 2 ^ 5
  opcode := instruction % 2 ^ 7

/-- `u32::from_le_bytes([b0, b1, b2, b3])`: little-endian reassembly of a
32-bit word. -/
def u32_from_le_bytes (b0 b1 b2 b3 : ℕ) : ℕ :=
  b0 + 2 ^ 8 * b1 + 2 ^ 16 * b2 + 2 ^ 24 * b3

/-- `InstructionFormatR::parse_instruction_from_bytes`
(instruction_formats.rs lines 78-83): indexes `bytes[0..=3]` (panicking on a
short slice, modelled as `none`), reassembles little-endian, delegates to
`new`. -/
def InstructionFormatR.parse_instruction_from_bytes (bytes : List ℕ) :
    Option InstructionFormatR :=
  match bytes[0]?, bytes[1]?, bytes[2]?, bytes[3]? with
  | some b0, some b1, some b2, some b3 =>
      some (InstructionFormatR.new (u32_from_le_bytes b0 b1 b2 b3))
  | _, _, _, _ => none

/-- `InstructionFormatI::parse_instruction_from_bytes`
(instruction_formats.rs lines 118-123). -/
def InstructionFormatI.parse_instruction_from_bytes (bytes : List ℕ) :
    Option InstructionFormatI :=
  match bytes[0]?, bytes[1]?, bytes[2]?, bytes[3]? with
  | some b0, some b1, some b2, some b3 =>
      some (InstructionFormatI.new (u32_from_le_bytes b0 b1 b2 b3))
  | _, _, _, _ => none

/-- `InstructionFormatS::parse_instruction_from_bytes`
(instruction_formats.rs lines 167-170). -/
def InstructionFormatS.parse_instruction_from_bytes (bytes : List ℕ) :
    Option InstructionFormatS :=
  match bytes[0]?, bytes[1]?, bytes[2]?, bytes[3]? with
  | some b0, some b1, some b2, some b3 =>
      some (InstructionFormatS.new (u32_from_le_bytes b0 b1 b2 b3))
  | _, _, _, _ => none

/-- `InstructionFormatB::parse_instruction_from_bytes`
(instruction_formats.rs lines 230-233). -/
def InstructionFormatB.parse_instruction_from_bytes (bytes : List ℕ) :
    Option InstructionFormatB :=
  match bytes[0]?, bytes[1]?, bytes[2]?, bytes[3]? with
  | some b0, some b1, some b2, some b3 =>
      some (InstructionFormatB.new (u32_from_le_bytes b0 b1 b2 b3))
  | _, _, _, _ => none

/-- `InstructionFormatU::parse_instruction_from_bytes`
(instruction_formats.rs lines 261-264). -/
def InstructionFormatU.parse_instruction_from_bytes (bytes : List ℕ) :
    Option InstructionFormatU :=
  match bytes[0]?, bytes[1]?, bytes[2]?, bytes[3]? with
  | some b0, some b1, some b2, some b3 =>
      some (InstructionFormatU.new (u32_from_le_bytes b0 b1 b2 b3))
  | _, _, _, _ => none

/-- `InstructionFormatJ::parse_instruction_from_bytes`
(instruction_formats.rs lines 304-307). -/
def InstructionFormatJ.parse_instruction_from_bytes (bytes : List ℕ) :
    Option InstructionFormatJ :=
  match bytes[0]?, bytes[1]?, bytes[2]?, bytes[3]? with
  | some b0, some b1, some b2, some b3 =>
      some (InstructionFormatJ.new (u32_from_le_bytes b0 b1 b2 b3))
  | _, _, _, _ => none

/-- Modelled from the spec: assemble an I-format word by placing field
values at the format's declared bit positions (§4.1: opcode bits 0-6, rd
bits 7-11, funct3 bits 12-14, rs1 bits 15-19, imm bits 20-31).  Used only to
state the round-trip claim; the decoder above is from the source. -/
def assembleFormatI (opcode rd funct3 rs1 imm : ℕ) : ℕ :=
  opcode + 2 ^ 7 * rd + 2 ^ 12 * funct3 + 2 ^ 15 * rs1 + 2 ^ 20 * imm

/-- The all-zero reset state (registers zero, `pc = 0`, `sp = 0`). -/
def zeroState : VmState where
  registers := fun _ => 0
  sp := 0
  pc := 0

/-- A state exercising `bltu`: `registers[1] = 7`, `registers[2] = 3`,
everything else zero, `pc = 100`. -/
def bltuProbeState : VmState where
  registers := fun j => if (j : ℕ) = 1 then 7 else if (j : ℕ) = 2 then 3 else 0
  sp := 0
  pc := 100

/-- A state with `registers[1] = i32::MAX` and `registers[2] = 1`. -/
def addOverflowState : VmState where
  registers := fun j => if (j : ℕ) = 1 then 2147483647 else if (j : ℕ) = 2 then 1 else 0
  sp := 0
  pc := 0

/-- The reference-test program (src/src/emulator/emulator.rs lines 356-385):
`LI x13,10; LI x12,15; BLTU x10,x11,+11; LI x12,25; ADD x10,x10,x11;
ADD x10,x10,x12; RET`. -/
def sketchProgram : List Instruction :=
  [ .pseudoInstruction (.li ⟨13, 10⟩)
  , .pseudoInstruction (.li ⟨12, 15⟩)
  , .rv32iInstruction (.bltu ⟨10, 11, 11⟩)
  , .pseudoInstruction (.li ⟨12, 25⟩)
  , .rv32iInstruction (.add ⟨10, 10, 11⟩)
  , .rv32iInstruction (.add ⟨10, 10, 12⟩)
  , .pseudoInstruction .ret ]

/-- Initial state of the end-to-end scenario: `x10 = 50`, `x11 = 55`,
all other registers zero, `pc = 0`, `sp = 0`. -/
def sketchInitialState : VmState where
  registers := fun j => if (j : ℕ) = 10 then 50 else if (j : ℕ) = 11 then 55 else 0
  sp := 0
  pc := 0

/-- Every shift-then-5-bit-mask extraction is below 32. -/
theorem div_mask5_lt_32 (w s : ℕ) : w / 2 ^ s % 2 ^ 5 < 32 :=
  Nat.mod_lt _ (by norm_num)

/-- C1: `rv32i_instruction_bltu` does not compare the register-file values at
`rs1`/`rs2`; it compares the raw operand fields.  At the failing input
`{rs1 := 1, rs2 := 2, imm := 8}` on a state with `registers[1] = 7` and
`registers[2] = 3`, the value comparison `registers[rs1] < registers[rs2]` is
false (so the claim demands `pc` be left alone), yet the source takes the
branch — because the field comparison `1 < 2` is true — and adds `imm` to
`pc` (`100 ↦ 108`). -/
theorem C1_bltu_compares_index_fields :
    ¬ getReg bltuProbeState.registers 1 < getReg bltuProbeState.registers 2 ∧
      (rv32i_instruction_bltu ⟨1, 2, 8⟩ bltuProbeState).pc = bltuProbeState.pc + 8 := by
  decide

/-- C2: the field round-trip fails for the I format.  Assembling an I-format
word from the in-width field values `opcode = 0`, `rd = 0`, `funct3 = 0`,
`rs1 = 0`, `imm = 256` (with `256 < 2 ^ 12`) and decoding it with
`InstructionFormatI::new` recovers `imm = 0`, not `256`: the source stores
the 12-bit immediate through a truncating `as u8` cast. -/
theorem C2_iformat_imm_truncated :
    256 < 2 ^ 12 ∧ (InstructionFormatI.new (assembleFormatI 0 0 0 0 256)).imm = 0 := by
  decide

/-- C3: the `Li` arm of `execute_instruction` has no `rd == 0` guard.
Executing `Li {rd := 0, imm := 5}` from the all-zero state writes `5` into
register 0, violating the hardwired-zero invariant the claim states. -/
theorem C3_li_writes_register_zero :
    getReg (executeInstruction
        (Instruction.pseudoInstruction (PseudoInstruction.li ⟨0, 5⟩)) zeroState).2.registers 0
      = 5 := by
  decide

/-- C4: every `Instruction` variant outside the two implemented arms
(`Rv32iInstruction::Add`, `PseudoInstruction::Li`) makes
`execute_instruction` return `Err(InstructionNotImplemented("aaa"))` with the
VM state — registers, `pc` and `sp` — returned exactly as it came in; the
fallback arms are total and never mutate or panic. -/
theorem C4_unimplemented_returns_error_state_unchanged
    (i : Instruction) (s : VmState) (h : hasImplementedArm i = false) :
    executeInstruction i s
      = (Except.error (Rv32iInstructionError.instructionNotImplemented "aaa"), s) := by
  cases i with
  | rv32iInstruction r =>
      cases r <;> first
        | rfl
        | exact absurd h (by simp [hasImplementedArm])
  | pseudoInstruction p =>
      cases p <;> first
        | rfl
        | exact absurd h (by simp [hasImplementedArm])

/-- Witness for C4 at the concrete unimplemented instruction
`Bltu {rs1 := 10, rs2 := 11, imm := 11}` and the all-zero state. -/
theorem C4_unimplemented_returns_error_state_unchanged_witness :
    executeInstruction
        (Instruction.rv32iInstruction (Rv32iInstruction.bltu ⟨10, 11, 11⟩)) zeroState
      = (Except.error (Rv32iInstructionError.instructionNotImplemented "aaa"), zeroState) :=
  C4_unimplemented_returns_error_state_unchanged _ _ (by rfl)

/-- C5 counterexample: running the reference program from
`x10 = 50, x11 = 55, pc = 0` leaves `pc` exactly where it started, so `pc` is
not advanced by `4 ×` the number of instructions executed — neither under the
reading "7 instructions attempted" nor "5 instructions returned `Ok`"
(nothing in `execute_instruction` or the dispatch loop touches `pc`). -/
theorem C5_pc_never_advanced :
    (runProgram sketchProgram sketchInitialState).pc = sketchInitialState.pc ∧
      sketchInitialState.pc + 4 * 7 ≠ sketchInitialState.pc ∧
      sketchInitialState.pc + 4 * 5 ≠ sketchInitialState.pc := by
  decide

/-- C5 amended: the same run does leave `x10 = 130` (the `BLTU` step returns
`NotImplemented` and falls through, so `x12 = 25` is loaded and
`x10 = 50 + 55 + 25`), while `pc` is left unchanged from its start value. -/
theorem C5_final_x10_130_pc_unchanged :
    getReg (runProgram sketchProgram sketchInitialState).registers 10 = 130 ∧
      (runProgram sketchProgram sketchInitialState).pc = sketchInitialState.pc := by
  decide

/-- C6 counterexample: at the all-zero state, executing `Ret` does not return
`Ok` — it falls into the pseudo-instruction fallback arm. -/
theorem C6_ret_not_ok :
    (executeInstruction (Instruction.pseudoInstruction PseudoInstruction.ret) zeroState).1
      ≠ Except.ok () := by
  intro h
  exact Except.noConfusion h

/-- C6 amended: for every VM state, executing `Ret` returns
`Err(InstructionNotImplemented("aaa"))` and leaves the state (registers,
`pc`, `sp`) unchanged — a state-level no-op, but reported as an error, not
`Ok`. -/
theorem C6_ret_error_state_unchanged (s : VmState) :
    executeInstruction (Instruction.pseudoInstruction PseudoInstruction.ret) s
      = (Except.error (Rv32iInstructionError.instructionNotImplemented "aaa"), s) :=
  rfl

/-- C7: for every state and in-range registers with `rd ≠ 0`, `Add` returns
`Ok` and stores the 32-bit-wrapped sum of the values read at `rs1` and `rs2`
into `rd`; and the wrap takes `i32::MAX + 1` to `i32::MIN`. -/
theorem C7_add_wrapping (s : VmState) (rd rs1 rs2 : ℕ)
    (h0 : rd ≠ 0) (h1 : rd < 32) (h2 : rs1 < 32) (h3 : rs2 < 32) :
    (executeInstruction
        (Instruction.rv32iInstruction (Rv32iInstruction.add ⟨rd, rs1, rs2⟩)) s).1
        = Except.ok () ∧
      getReg (executeInstruction
          (Instruction.rv32iInstruction (Rv32iInstruction.add ⟨rd, rs1, rs2⟩)) s).2.registers rd
        = wrap32 (getReg s.registers rs1 + getReg s.registers rs2) ∧
      wrap32 (2147483647 + 1) = -2147483648 := by
  refine ⟨rfl, ?_, by decide⟩
  show getReg (rv32i_instruction_add ⟨rd, rs1, rs2⟩ s).registers rd = _
  rw [rv32i_instruction_add, if_neg h0]
  rw [getReg, dif_pos h1]
  simp [setReg]

/-- Witness for C7: adding `i32::MAX` (in `x1`) and `1` (in `x2`) into `x3`
yields `i32::MIN` via the wrap. -/
theorem C7_add_wrapping_witness :
    (executeInstruction
        (Instruction.rv32iInstruction (Rv32iInstruction.add ⟨3, 1, 2⟩)) addOverflowState).1
        = Except.ok () ∧
      getReg (executeInstruction
          (Instruction.rv32iInstruction (Rv32iInstruction.add ⟨3, 1, 2⟩))
          addOverflowState).2.registers 3
        = wrap32 (getReg addOverflowState.registers 1 + getReg addOverflowState.registers 2) ∧
      wrap32 (2147483647 + 1) = -2147483648 :=
  C7_add_wrapping addOverflowState 3 1 2 (by decide) (by decide) (by decide) (by decide)

/-- C8: for every 4-byte buffer, each of the six format decoders'
`parse_instruction_from_bytes` succeeds (no panic, no out-of-bounds read:
the `none` branch that models the Rust panic is not taken) and returns the
decode of the little-endian reassembly of the bytes. -/
theorem C8_parse_total_on_4_bytes (b0 b1 b2 b3 : ℕ) :
    InstructionFormatR.parse_instruction_from_bytes [b0, b1, b2, b3]
        = some (InstructionFormatR.new (u32_from_le_bytes b0 b1 b2 b3)) ∧
      InstructionFormatI.parse_instruction_from_bytes [b0, b1, b2, b3]
        = some (InstructionFormatI.new (u32_from_le_bytes b0 b1 b2 b3)) ∧
      InstructionFormatS.parse_instruction_from_bytes [b0, b1, b2, b3]
        = some (InstructionFormatS.new (u32_from_le_bytes b0 b1 b2 b3)) ∧
      InstructionFormatB.parse_instruction_from_bytes [b0, b1, b2, b3]
        = some (InstructionFormatB.new (u32_from_le_bytes b0 b1 b2 b3)) ∧
      InstructionFormatU.parse_instruction_from_bytes [b0, b1, b2, b3]
        = some (InstructionFormatU.new (u32_from_le_bytes b0 b1 b2 b3)) ∧
      InstructionFormatJ.parse_instruction_from_bytes [b0, b1, b2, b3]
        = some (InstructionFormatJ.new (u32_from_le_bytes b0 b1 b2 b3)) :=
  ⟨rfl, rfl, rfl, rfl, rfl, rfl⟩

/-- C9: for every 32-bit instruction word, every register-index field
extracted by the six format constructors (`rd`, `rs1`, `rs2`) is strictly
below 32 — each is produced by a shift followed by a 5-bit mask. -/
theorem C9_register_indices_below_32 (w : ℕ) :
    (InstructionFormatR.new w).rd < 32 ∧ (InstructionFormatR.new w).rs1 < 32 ∧
      (InstructionFormatR.new w).rs2 < 32 ∧
      (InstructionFormatI.new w).rd < 32 ∧ (InstructionFormatI.new w).rs1 < 32 ∧
      (InstructionFormatS.new w).rs1 < 32 ∧ (InstructionFormatS.new w).rs2 < 32 ∧
      (InstructionFormatB.new w).rs1 < 32 ∧ (InstructionFormatB.new w).rs2 < 32 ∧
      (InstructionFormatU.new w).rd < 32 ∧
      (InstructionFormatJ.new w).rd < 32 :=
  ⟨div_mask5_lt_32 w 7, div_mask5_lt_32 w 15, div_mask5_lt_32 w 20,
    div_mask5_lt_32 w 7, div_mask5_lt_32 w 15,
    div_mask5_lt_32 w 15, div_mask5_lt_32 w 20,
    div_mask5_lt_32 w 15, div_mask5_lt_32 w 20,
    div_mask5_lt_32 w 7,
    div_mask5_lt_32 w 7⟩

/-- C10: for every payload and every VM state, `rv32i_instruction_bltu`
leaves the register file and the stack pointer unchanged; `pc` is the only
field it may modify. -/
theorem C10_bltu_touches_only_pc (sig : Source1Source2Immediate) (s : VmState) :
    (rv32i_instruction_bltu sig s).registers = s.registers ∧
      (rv32i_instruction_bltu sig s).sp = s.sp := by
  rw [rv32i_instruction_bltu]
  split <;> exact ⟨rfl, rfl⟩

end WebRiscvVm
